import Mathlib

/-!
# Verification of the rod-mcp-server core (`main.go`)

Shallow embedding of the single-file Go program `main.go` of
`birddigital/rod-mcp-server`: an MCP (JSON-RPC-over-stdio) server exposing
eight browser-automation tools backed by the rod browser-control library.

Modelling conventions:

* Dynamically typed JSON-decoded Go values (`interface{}`) are the inductive
  `GoVal`.  JSON numbers (which Go decodes to `float64`) are modelled at
  integer precision as `Int`; none of the verified properties depend on
  fractional values.
* The rod browser driver (an external collaborator; the Driver
  Facade of the spec) is an oracle `Driver`: a record of pure functions giving the
  outcome of each facade call.  Following the spec, the facade operation
  `page.Timeout(d)` is modelled as setting the default
  operation timeout of the page (a `PageState` field, in nanoseconds, `0` = the
  unbounded default), and element resolution receives the current
  timeout of the page.
* Go `error` results are `Except String`; a rod `Must*` call that panics
  on failure is modelled by the `panicked` constructors, which carry the
  server state at the moment of the panic (so that deferred cleanup can be
  modelled faithfully).
* `json.Decoder.Decode` outcomes on stdin are pre-decoded `DecodeEvent`s;
  `encoder.Encode` failures only print to stderr in the source and affect no
  control flow, so they are not modelled.
* `time.Now().Unix()` is the oracle field `nowUnix`; `os.TempDir()` is the
  oracle field `tempDir`; the ignored `os.MkdirAll` error is a no-op here.
-/

namespace RodMCP

/-- A JSON-decoded Go `interface{}` value (the element type of the
`arguments` map and of the request `id`).  `other` stands for any value that
is none of the primitive shapes the program ever type-asserts on
(objects, arrays, JSON null decoded to nil, ...). -/
inductive GoVal where
  | str (s : String)
  | num (n : Int)
  | boolean (b : Bool)
  | other
  deriving DecidableEq

/-- A JSON value, used for the structured result payloads the Go program
builds out of `map[string]interface{}` literals (tool schemas, the
`initialize` payload, `tools/list` and `tools/call` results). -/
inductive JsonV where
  | str (s : String)
  | num (n : Int)
  | boolean (b : Bool)
  | null
  | arr (xs : List JsonV)
  | obj (fields : List (String × JsonV))

/-- The `arguments` map of a tool call (`map[string]interface{}`).  Keys are
unique in a Go map; lookup returns the first binding. -/
abbrev Args := List (String × GoVal)

/-- `args[k]`: Go map indexing; a missing key yields the nil interface,
modelled as `none`. -/
def lookupArg (args : Args) (k : String) : Option GoVal :=
  match args with
  | [] => none
  | (k0, v) :: rest => if k0 = k then some v else lookupArg rest k

/-- `args[k].(string)`: the type assertion succeeds exactly when the key is
present and holds a string. -/
def getStr (args : Args) (k : String) : Option String :=
  match lookupArg args k with
  | some (GoVal.str s) => some s
  | _ => none

/-- `args[k].(float64)`: JSON numbers decode to `float64`, so the assertion
succeeds exactly on a number. -/
def getNum (args : Args) (k : String) : Option Int :=
  match lookupArg args k with
  | some (GoVal.num n) => some n
  | _ => none

/-- `args[k].(bool)`. -/
def getBool (args : Args) (k : String) : Option Bool :=
  match lookupArg args k with
  | some (GoVal.boolean b) => some b
  | _ => none

/-- Opaque handle to a resolved DOM element (`*rod.Element`). -/
abbrev Elem := Nat

/-- The mutable state of the single rod page the server owns: its default
operation timeout in nanoseconds (`0` = unbounded default; a fresh page
starts at `0`). -/
structure PageState where
  timeout : Int
  deriving DecidableEq

/-- The `Server` struct: the lazily created browser handle and page
(`nil` pointers at startup, both set by `initBrowser`). -/
structure ServerState where
  browser : Option Unit
  page : Option PageState
  deriving DecidableEq

/-- The Driver Facade oracle: the outcome of every external rod / launcher /
OS call the program makes.  Element resolution takes the current page
default operation timeout (nanoseconds) because rod bounds the wait by it. -/
structure Driver where
  /-- `launcher.LookPath()`: browser executable path and whether one was found
  (the program ignores the boolean). -/
  lookPath : String × Bool
  /-- `launcher.New().Bin(path).Launch()`: control URL, or the failure that
  makes `MustLaunch` panic. -/
  launch : String → Except String String
  /-- `rod.New().ControlURL(u).Connect()`: failure makes `MustConnect` panic. -/
  connect : String → Except String Unit
  /-- `browser.Page(...)`: failure makes `MustPage` panic. -/
  mustPage : Except String Unit
  /-- `page.Navigate(url)`. -/
  navigate : String → Except String Unit
  /-- `page.WaitLoad()`. -/
  waitLoad : Except String Unit
  /-- `page.Element(selector)` under the given default operation timeout
  (nanoseconds): the resolved element, or an error (no match within the
  timeout). -/
  element : Int → String → Except String Elem
  /-- `elem.Click(button, clickCount)`; the string is the
  `proto.InputMouseButton` value (the program always passes "left", 1). -/
  click : Elem → String → Nat → Except String Unit
  /-- `page.Screenshot(fullPage, nil)`: opaque captured bytes. -/
  screenshotCap : Bool → Except String Nat
  /-- `os.WriteFile(path, data, 0644)`. -/
  writeFile : String → Nat → Except String Unit
  /-- `os.TempDir()`. -/
  tempDir : String
  /-- `time.Now().Unix()`. -/
  nowUnix : Int
  /-- `elem.Attribute(name)`: `.ok none` when the element lacks the
  attribute (rod returns a nil pointer and no error). -/
  attr : Elem → String → Except String (Option String)
  /-- `elem.Text()`. -/
  textContent : Elem → Except String String
  /-- `page.Eval(script)`: the `%v` rendering of `result.Value`. -/
  evalScript : String → Except String String
  /-- `elem.SelectAllText()`. -/
  selectAllText : Elem → Except String Unit
  /-- `elem.Input(text)`. -/
  input : Elem → String → Except String Unit
  /-- `page.Close()` (returned error is ignored by `cleanup`). -/
  closePage : Except String Unit
  /-- `browser.Close()` (returned error is ignored by `cleanup`). -/
  closeBrowser : Except String Unit

/-- `time.Duration(timeout) * time.Second` for an integral `timeout`:
the duration in nanoseconds. -/
def secondsToDuration (t : Int) : Int := t * 1000000000

/-- `filepath.Join` on the clean, separator-free components the program
uses. -/
def filepathJoin (a b : String) : String := a ++ "/" ++ b

/-- `Server.navigate` (main.go:341). -/
def navigate (d : Driver) (pg : PageState) (args : Args) :
    PageState × Except String String :=
  match getStr args "url" with
  | none => (pg, Except.error "url must be a string")
  | some url =>
    match d.navigate url with
    | Except.error e => (pg, Except.error e)
    | Except.ok _ =>
      match d.waitLoad with
      | Except.error e => (pg, Except.error e)
      | Except.ok _ => (pg, Except.ok ("Successfully navigated to " ++ url))

/-- `Server.click` (main.go:358). -/
def click (d : Driver) (pg : PageState) (args : Args) :
    PageState × Except String String :=
  match getStr args "selector" with
  | none => (pg, Except.error "selector must be a string")
  | some selector =>
    match d.element pg.timeout selector with
    | Except.error _ => (pg, Except.error ("element not found: " ++ selector))
    | Except.ok elem =>
      match d.click elem "left" 1 with
      | Except.error e => (pg, Except.error e)
      | Except.ok _ => (pg, Except.ok ("Successfully clicked " ++ selector))

/-- `Server.screenshot` (main.go:376).  `os.MkdirAll` (whose error the
source discards) creates no modelled state. -/
def screenshot (d : Driver) (pg : PageState) (args : Args) :
    PageState × Except String String :=
  let filename :=
    match getStr args "filename" with
    | some f =>
      if f = "" then "screenshot_" ++ toString d.nowUnix ++ ".png" else f
    | none => "screenshot_" ++ toString d.nowUnix ++ ".png"
  let fullPage :=
    match getBool args "fullPage" with
    | some fp => fp
    | none => false
  let screenshotDir := filepathJoin d.tempDir "rod-screenshots"
  let path := filepathJoin screenshotDir filename
  match d.screenshotCap fullPage with
  | Except.error e => (pg, Except.error e)
  | Except.ok data =>
    match d.writeFile path data with
    | Except.error e => (pg, Except.error e)
    | Except.ok _ => (pg, Except.ok ("Screenshot saved to " ++ path))

/-- `Server.getAttribute` (main.go:406). -/
def getAttribute (d : Driver) (pg : PageState) (args : Args) :
    PageState × Except String String :=
  match getStr args "selector" with
  | none => (pg, Except.error "selector must be a string")
  | some selector =>
    match getStr args "attribute" with
    | none => (pg, Except.error "attribute must be a string")
    | some attrName =>
      match d.element pg.timeout selector with
      | Except.error _ => (pg, Except.error ("element not found: " ++ selector))
      | Except.ok elem =>
        match d.attr elem attrName with
        | Except.error e => (pg, Except.error e)
        | Except.ok none =>
          (pg, Except.ok ("Attribute \x27" ++ attrName ++ "\x27 not found on " ++ selector))
        | Except.ok (some value) =>
          (pg, Except.ok ("Attribute \x27" ++ attrName ++ "\x27 on " ++ selector ++
            " = \x27" ++ value ++ "\x27"))

/-- `Server.getText` (main.go:434). -/
def getText (d : Driver) (pg : PageState) (args : Args) :
    PageState × Except String String :=
  match getStr args "selector" with
  | none => (pg, Except.error "selector must be a string")
  | some selector =>
    match d.element pg.timeout selector with
    | Except.error _ => (pg, Except.error ("element not found: " ++ selector))
    | Except.ok elem =>
      match d.textContent elem with
      | Except.error e => (pg, Except.error e)
      | Except.ok text =>
        (pg, Except.ok ("Text content of " ++ selector ++ ": \x27" ++ text ++ "\x27"))

/-- `Server.waitFor` (main.go:453): sets the default operation
timeout of the page to `time.Duration(timeout) * time.Second`, resolves the element
once under it, and the deferred `s.page.Timeout(0)` restores the unbounded
default on every return path. -/
def waitFor (d : Driver) (pg : PageState) (args : Args) :
    PageState × Except String String :=
  match getStr args "selector" with
  | none => (pg, Except.error "selector must be a string")
  | some selector =>
    let timeout : Int :=
      match getNum args "timeout" with
      | some t => t
      | none => 30
    let pg1 : PageState := { pg with timeout := secondsToDuration timeout }
    match d.element pg1.timeout selector with
    | Except.error _ =>
      ({ pg1 with timeout := 0 },
        Except.error ("element " ++ selector ++ " did not appear within " ++
          toString timeout ++ " seconds"))
    | Except.ok _ =>
      ({ pg1 with timeout := 0 },
        Except.ok ("Element " ++ selector ++ " appeared"))

/-- `Server.eval` (main.go:475). -/
def eval (d : Driver) (pg : PageState) (args : Args) :
    PageState × Except String String :=
  match getStr args "script" with
  | none => (pg, Except.error "script must be a string")
  | some script =>
    match d.evalScript script with
    | Except.error e => (pg, Except.error e)
    | Except.ok v => (pg, Except.ok ("JavaScript result: " ++ v))

/-- `Server.fill` (main.go:489). -/
def fill (d : Driver) (pg : PageState) (args : Args) :
    PageState × Except String String :=
  match getStr args "selector" with
  | none => (pg, Except.error "selector must be a string")
  | some selector =>
    match getStr args "text" with
    | none => (pg, Except.error "text must be a string")
    | some text =>
      match d.element pg.timeout selector with
      | Except.error _ => (pg, Except.error ("element not found: " ++ selector))
      | Except.ok elem =>
        match d.selectAllText elem with
        | Except.error e => (pg, Except.error e)
        | Except.ok _ =>
          match d.input elem text with
          | Except.error e => (pg, Except.error e)
          | Except.ok _ =>
            (pg, Except.ok ("Filled " ++ selector ++ " with \x27" ++ text ++ "\x27"))

/-- The `Tool` struct (main.go:36): one ToolDescriptor of the static
catalog. -/
structure Tool where
  name : String
  description : String
  inputSchema : JsonV

/-- JSON encoding of a `Tool`, as `encoding/json` marshals the struct. -/
def toolJson (t : Tool) : JsonV :=
  JsonV.obj [("name", JsonV.str t.name),
             ("description", JsonV.str t.description),
             ("inputSchema", t.inputSchema)]

/-- A string-typed schema property with a description, the shape every
property of the catalog uses. -/
def schemaProp (ty desc : String) : JsonV :=
  JsonV.obj [("type", JsonV.str ty), ("description", JsonV.str desc)]

/-- `Server.getTools` (main.go:114): the static catalog of the eight
ToolDescriptors. -/
def getTools : List Tool :=
  [ { name := "rod_navigate",
      description := "Navigate to a URL in the browser",
      inputSchema := JsonV.obj
        [("type", JsonV.str "object"),
         ("properties", JsonV.obj
           [("url", schemaProp "string" "The URL to navigate to")]),
         ("required", JsonV.arr [JsonV.str "url"])] },
    { name := "rod_click",
      description := "Click an element by CSS selector",
      inputSchema := JsonV.obj
        [("type", JsonV.str "object"),
         ("properties", JsonV.obj
           [("selector", schemaProp "string" "CSS selector for the element to click")]),
         ("required", JsonV.arr [JsonV.str "selector"])] },
    { name := "rod_screenshot",
      description := "Take a screenshot of the current page",
      inputSchema := JsonV.obj
        [("type", JsonV.str "object"),
         ("properties", JsonV.obj
           [("filename", schemaProp "string"
              "Optional filename for the screenshot (default: timestamp)"),
            ("fullPage", schemaProp "boolean"
              "Capture full page or just viewport (default: false)")])] },
    { name := "rod_get_attribute",
      description := "Get an HTML attribute value from an element (perfect for HTMX-R state)",
      inputSchema := JsonV.obj
        [("type", JsonV.str "object"),
         ("properties", JsonV.obj
           [("selector", schemaProp "string" "CSS selector for the element"),
            ("attribute", schemaProp "string"
              "Attribute name to read (e.g., \x27data-state-loading\x27)")]),
         ("required", JsonV.arr [JsonV.str "selector", JsonV.str "attribute"])] },
    { name := "rod_get_text",
      description := "Get the text content of an element",
      inputSchema := JsonV.obj
        [("type", JsonV.str "object"),
         ("properties", JsonV.obj
           [("selector", schemaProp "string" "CSS selector for the element")]),
         ("required", JsonV.arr [JsonV.str "selector"])] },
    { name := "rod_wait_for",
      description := "Wait for an element to appear",
      inputSchema := JsonV.obj
        [("type", JsonV.str "object"),
         ("properties", JsonV.obj
           [("selector", schemaProp "string" "CSS selector for the element to wait for"),
            ("timeout", schemaProp "number" "Timeout in seconds (default: 30)")]),
         ("required", JsonV.arr [JsonV.str "selector"])] },
    { name := "rod_eval",
      description := "Execute JavaScript in the page context",
      inputSchema := JsonV.obj
        [("type", JsonV.str "object"),
         ("properties", JsonV.obj
           [("script", schemaProp "string" "JavaScript code to execute")]),
         ("required", JsonV.arr [JsonV.str "script"])] },
    { name := "rod_fill",
      description := "Fill an input field with text",
      inputSchema := JsonV.obj
        [("type", JsonV.str "object"),
         ("properties", JsonV.obj
           [("selector", schemaProp "string" "CSS selector for the input element"),
            ("text", schemaProp "string" "Text to fill into the input")]),
         ("required", JsonV.arr [JsonV.str "selector", JsonV.str "text"])] } ]

/-- The decoded `params` of a `tools/call` request (main.go:247). -/
structure ToolCallParams where
  name : String
  arguments : Args
  deriving DecidableEq

/-- `MCPRequest` (main.go:17).  `params` holds the outcome of
`json.Unmarshal(req.Params, &params)` as `handleToolCall` would compute it
(`.error e` when the raw payload does not unmarshal). -/
structure MCPRequest where
  jsonrpc : String
  id : GoVal
  method : String
  params : Except String ToolCallParams

/-- `MCPError` (main.go:31). -/
structure MCPError where
  code : Int
  message : String
  deriving DecidableEq

/-- `MCPResponse` (main.go:24): `result` and `error` are the two
`omitempty` fields. -/
structure MCPResponse where
  jsonrpc : String
  id : GoVal
  result : Option JsonV
  error : Option MCPError

/-- An error response, as every `Error:`-carrying literal in the source
builds it. -/
def errResponse (id : GoVal) (code : Int) (message : String) : MCPResponse :=
  { jsonrpc := "2.0", id := id, result := none,
    error := some { code := code, message := message } }

/-- A result response. -/
def okResponse (id : GoVal) (v : JsonV) : MCPResponse :=
  { jsonrpc := "2.0", id := id, result := some v, error := none }

/-- The `tools/call` success payload
`{content:[{type:"text", text:...}]}` (main.go:322); the `%v` rendering of a
tool result is the string itself since every tool returns a string. -/
def contentResult (text : String) : JsonV :=
  JsonV.obj [("content", JsonV.arr
    [JsonV.obj [("type", JsonV.str "text"), ("text", JsonV.str text)]])]

/-- The static `initialize` payload (main.go:78). -/
def initializeResult : JsonV :=
  JsonV.obj
    [("protocolVersion", JsonV.str "2024-11-05"),
     ("capabilities", JsonV.obj [("tools", JsonV.obj [])]),
     ("serverInfo", JsonV.obj
       [("name", JsonV.str "rod-mcp-server"),
        ("version", JsonV.str "1.0.0")])]

/-- The `tools/list` payload `{tools: s.getTools()}` (main.go:94). -/
def toolsListResult : JsonV :=
  JsonV.obj [("tools", JsonV.arr (getTools.map toolJson))]

/-- Result of `Server.initBrowser`: either a normal return carrying the
updated state and the returned Go `error` (the source always returns `nil`),
or a panic from one of the `Must*` calls, carrying the fields already
assigned when the panic fired. -/
inductive InitResult where
  | ok (st : ServerState) (errOut : Option String)
  | panicked (st : ServerState) (msg : String)

/-- `Server.initBrowser` (main.go:333).  the boolean of `LookPath` is discarded
(`path, _ :=`); `MustLaunch`, `MustConnect` and `MustPage` panic on failure
(`s.browser` is already assigned when `MustPage` panics); on success the
fresh page has the unbounded default timeout. -/
def initBrowser (d : Driver) (st : ServerState) : InitResult :=
  let path := d.lookPath.1
  match d.launch path with
  | Except.error e => InitResult.panicked st e
  | Except.ok u =>
    match d.connect u with
    | Except.error e => InitResult.panicked st e
    | Except.ok _ =>
      let st1 : ServerState := { st with browser := some () }
      match d.mustPage with
      | Except.error e => InitResult.panicked st1 e
      | Except.ok _ =>
        InitResult.ok { st1 with page := some { timeout := 0 } } none

/-- Result of handling one request: a response (with the updated server
state), or a panic that aborts the process. -/
inductive StepResult where
  | ok (st : ServerState) (resp : MCPResponse)
  | panicked (st : ServerState) (msg : String)

/-- The `switch params.Name` dispatch of `handleToolCall` (main.go:280):
the tool body for a known name, `none` for the `default` branch. -/
def runTool (d : Driver) (name : String) :
    Option (PageState → Args → PageState × Except String String) :=
  match name with
  | "rod_navigate" => some (navigate d)
  | "rod_click" => some (click d)
  | "rod_screenshot" => some (screenshot d)
  | "rod_get_attribute" => some (getAttribute d)
  | "rod_get_text" => some (getText d)
  | "rod_wait_for" => some (waitFor d)
  | "rod_eval" => some (eval d)
  | "rod_fill" => some (fill d)
  | _ => none

/-- `Server.handleToolCall` (main.go:246): decode params, lazily create the
browser session, dispatch on the tool name, and wrap the result or error.
The body of a known tool dereferences `s.page`; the `nil`-page case (unreachable
from the initial state) is the Go nil-pointer panic. -/
def handleToolCall (d : Driver) (st : ServerState) (req : MCPRequest) :
    StepResult :=
  match req.params with
  | Except.error e =>
    StepResult.ok st (errResponse req.id (-32602) ("Invalid params: " ++ e))
  | Except.ok params =>
    match (if st.browser = none then initBrowser d st else InitResult.ok st none) with
    | InitResult.panicked st1 msg => StepResult.panicked st1 msg
    | InitResult.ok st1 errOut =>
      match errOut with
      | some e =>
        StepResult.ok st1
          (errResponse req.id (-32603) ("Failed to initialize browser: " ++ e))
      | none =>
        match runTool d params.name with
        | none =>
          StepResult.ok st1
            (errResponse req.id (-32601) ("Unknown tool: " ++ params.name))
        | some toolFn =>
          match st1.page with
          | none =>
            StepResult.panicked st1 "invalid memory address or nil pointer dereference"
          | some pg =>
            match toolFn pg params.arguments with
            | (pg1, Except.error e) =>
              StepResult.ok { st1 with page := some pg1 }
                (errResponse req.id (-32603) e)
            | (pg1, Except.ok text) =>
              StepResult.ok { st1 with page := some pg1 }
                (okResponse req.id (contentResult text))

/-- `Server.handleRequest` (main.go:72): route by method name. -/
def handleRequest (d : Driver) (st : ServerState) (req : MCPRequest) :
    StepResult :=
  if req.method = "initialize" then
    StepResult.ok st (okResponse req.id initializeResult)
  else if req.method = "tools/list" then
    StepResult.ok st (okResponse req.id toolsListResult)
  else if req.method = "tools/call" then
    handleToolCall d st req
  else
    StepResult.ok st
      (errResponse req.id (-32601) ("Method not found: " ++ req.method))

/-- One `decoder.Decode(&req)` outcome in the main loop: a decoded request,
a non-EOF decode error (the `continue` branch), or `io.EOF` (the `break`
branch).  An exhausted event list behaves like EOF. -/
inductive DecodeEvent where
  | ok (req : MCPRequest)
  | malformed
  | eof

/-- How the main loop ends: clean termination at end of input, or a panic
propagating out of a request handler. -/
inductive LoopExit where
  | normal (st : ServerState)
  | panicked (st : ServerState) (msg : String)

/-- The `for` loop of `main` (main.go:56): the encoded responses in order,
and the way the loop ended. -/
def runLoop (d : Driver) : ServerState → List DecodeEvent →
    List MCPResponse × LoopExit
  | st, [] => ([], LoopExit.normal st)
  | st, DecodeEvent.eof :: _ => ([], LoopExit.normal st)
  | st, DecodeEvent.malformed :: rest => runLoop d st rest
  | st, DecodeEvent.ok req :: rest =>
    match handleRequest d st req with
    | StepResult.ok st1 resp =>
      let out := runLoop d st1 rest
      (resp :: out.1, out.2)
    | StepResult.panicked st1 msg => ([], LoopExit.panicked st1 msg)

/-- The two close operations `cleanup` may attempt. -/
inductive CloseAction where
  | closePage
  | closeBrowser
  deriving DecidableEq

/-- `Server.cleanup` (main.go:516): close the page if one exists, then the
browser if one exists; the returned error of each `Close` is ignored, so the
trace records every attempt with its outcome. -/
def cleanup (d : Driver) (st : ServerState) :
    List (CloseAction × Except String Unit) :=
  (match st.page with
   | some _ => [(CloseAction.closePage, d.closePage)]
   | none => []) ++
  (match st.browser with
   | some _ => [(CloseAction.closeBrowser, d.closeBrowser)]
   | none => [])

/-- The zero value of `Server` (main.go:49): no browser, no page. -/
def emptyState : ServerState := { browser := none, page := none }

/-- One whole run of `main` (main.go:48). -/
structure RunResult where
  responses : List MCPResponse
  exitState : ServerState
  panicMsg : Option String
  cleanupTrace : List (CloseAction × Except String Unit)

/-- `main` (main.go:48): run the loop from the zero-valued server; the
deferred `server.cleanup()` runs exactly once on every exit path — after a
normal `break` and during panic unwinding alike. -/
def mainRun (d : Driver) (events : List DecodeEvent) : RunResult :=
  match runLoop d emptyState events with
  | (resps, LoopExit.normal st) =>
    { responses := resps, exitState := st, panicMsg := none,
      cleanupTrace := cleanup d st }
  | (resps, LoopExit.panicked st msg) =>
    { responses := resps, exitState := st, panicMsg := some msg,
      cleanupTrace := cleanup d st }

/-! ## Derived notions used by the verified properties -/

/-- The required string-typed arguments of each known tool, in the order the
tool body type-asserts them. -/
def requiredStringArgs : String → List String
  | "rod_navigate" => ["url"]
  | "rod_click" => ["selector"]
  | "rod_get_attribute" => ["selector", "attribute"]
  | "rod_get_text" => ["selector"]
  | "rod_wait_for" => ["selector"]
  | "rod_eval" => ["script"]
  | "rod_fill" => ["selector", "text"]
  | _ => []

/-- The first required field (in assertion order) that is missing or not a
string. -/
def firstInvalidArg (fields : List String) (args : Args) : Option String :=
  fields.find? (fun f => (getStr args f).isNone)

/-- The effective `wait_for` timeout in seconds: the numeric `timeout`
argument, or 30. -/
def timeoutArg (args : Args) : Int :=
  match getNum args "timeout" with
  | some t => t
  | none => 30

/-- The page (when one exists) is at the unbounded default operation
timeout. -/
def pageDefault (st : ServerState) : Prop :=
  ∀ p, st.page = some p → p.timeout = 0

/-! ## Concrete oracles and requests used by the witnesses -/

/-- A driver on which every facade call succeeds; the element carries no
attributes and empty text. -/
def dOk : Driver :=
  { lookPath := ("/usr/bin/chromium", true)
    launch := fun _ => Except.ok "ws://127.0.0.1:9222/devtools"
    connect := fun _ => Except.ok ()
    mustPage := Except.ok ()
    navigate := fun _ => Except.ok ()
    waitLoad := Except.ok ()
    element := fun _ _ => Except.ok 0
    click := fun _ _ _ => Except.ok ()
    screenshotCap := fun _ => Except.ok 0
    writeFile := fun _ _ => Except.ok ()
    tempDir := "/tmp"
    nowUnix := 1700000000
    attr := fun _ _ => Except.ok none
    textContent := fun _ => Except.ok "hello"
    evalScript := fun _ => Except.ok "1"
    selectAllText := fun _ => Except.ok ()
    input := fun _ _ => Except.ok ()
    closePage := Except.ok ()
    closeBrowser := Except.ok () }

/-- A driver on which the browser launch fails. -/
def dLaunchFail : Driver :=
  { dOk with launch := fun _ => Except.error "browser executable not found" }

/-- A driver on which no element ever resolves and closing the page fails. -/
def dNoElem : Driver :=
  { dOk with
    element := fun _ _ => Except.error "cannot find element"
    closePage := Except.error "page already closed" }

/-- A server state whose session exists, with the page at the default
timeout. -/
def readyState : ServerState := { browser := some (), page := some { timeout := 0 } }

/-- A `tools/call` request with the given decoded params. -/
def mkCall (id : GoVal) (name : String) (args : Args) : MCPRequest :=
  { jsonrpc := "2.0", id := id, method := "tools/call",
    params := Except.ok { name := name, arguments := args } }

/-! ## Helper lemmas (shared) -/

theorem navigate_fst (d : Driver) (pg : PageState) (args : Args) :
    (navigate d pg args).1 = pg := by
  unfold navigate
  split
  · rfl
  · split
    · rfl
    · split <;> rfl

theorem click_fst (d : Driver) (pg : PageState) (args : Args) :
    (click d pg args).1 = pg := by
  unfold click
  split
  · rfl
  · split
    · rfl
    · split <;> rfl

theorem screenshot_fst (d : Driver) (pg : PageState) (args : Args) :
    (screenshot d pg args).1 = pg := by
  unfold screenshot
  dsimp only
  split
  · rfl
  · split <;> rfl

theorem getAttribute_fst (d : Driver) (pg : PageState) (args : Args) :
    (getAttribute d pg args).1 = pg := by
  unfold getAttribute
  split
  · rfl
  · split
    · rfl
    · split
      · rfl
      · split <;> rfl

theorem getText_fst (d : Driver) (pg : PageState) (args : Args) :
    (getText d pg args).1 = pg := by
  unfold getText
  split
  · rfl
  · split
    · rfl
    · split <;> rfl

theorem eval_fst (d : Driver) (pg : PageState) (args : Args) :
    (eval d pg args).1 = pg := by
  unfold eval
  split
  · rfl
  · split <;> rfl

theorem fill_fst (d : Driver) (pg : PageState) (args : Args) :
    (fill d pg args).1 = pg := by
  unfold fill
  split
  · rfl
  · split
    · rfl
    · split
      · rfl
      · split
        · rfl
        · split <;> rfl

theorem waitFor_fst (d : Driver) (pg : PageState) (args : Args) :
    (waitFor d pg args).1 = pg ∨ (waitFor d pg args).1.timeout = 0 := by
  unfold waitFor
  split
  · exact Or.inl rfl
  · dsimp only
    split
    · exact Or.inr rfl
    · exact Or.inr rfl

theorem runTool_timeout (d : Driver) (name : String)
    (f : PageState → Args → PageState × Except String String)
    (h : runTool d name = some f) (pg : PageState) (args : Args)
    (hpg : pg.timeout = 0) : ((f pg args).1).timeout = 0 := by
  unfold runTool at h
  split at h <;>
    first
    | exact Option.noConfusion h
    | (injection h with h1
       subst h1
       first
       | rw [navigate_fst, hpg]
       | rw [click_fst, hpg]
       | rw [screenshot_fst, hpg]
       | rw [getAttribute_fst, hpg]
       | rw [getText_fst, hpg]
       | rw [eval_fst, hpg]
       | rw [fill_fst, hpg]
       | rcases waitFor_fst d pg args with h2 | h2
         <;> simp only [h2, hpg])

theorem initBrowser_ok_spec (d : Driver) (st st1 : ServerState)
    (errOut : Option String) (h : initBrowser d st = InitResult.ok st1 errOut) :
    errOut = none ∧ st1.browser = some () ∧ st1.page = some { timeout := 0 } := by
  unfold initBrowser at h
  dsimp only at h
  cases hl : d.launch d.lookPath.1 with
  | error e => rw [hl] at h; exact InitResult.noConfusion h
  | ok u =>
    rw [hl] at h
    dsimp only at h
    cases hc : d.connect u with
    | error e => rw [hc] at h; exact InitResult.noConfusion h
    | ok _ =>
      rw [hc] at h
      dsimp only at h
      cases hp : d.mustPage with
      | error e => rw [hp] at h; exact InitResult.noConfusion h
      | ok _ =>
        rw [hp] at h
        dsimp only at h
        injection h with h1 h2
        subst h1 h2
        exact ⟨rfl, rfl, rfl⟩

/-! ## Claim theorems -/

/-- C7: in every server state and for any number of invocations, the
`tools/list` method returns the identical static catalog of the eight
ToolDescriptors (the response is a constant independent of the driver, the
state and the call count) and has no side effect on the server state (the
state is returned unchanged). -/
theorem toolsList_idempotent_and_pure :
    (∀ (d : Driver) (st : ServerState) (req : MCPRequest),
        req.method = "tools/list" →
        handleRequest d st req =
          StepResult.ok st (okResponse req.id toolsListResult))
    ∧ getTools.length = 8 := by
  constructor
  · intro d st req h
    unfold handleRequest
    rw [h]
    rfl
  · rfl

/-- Witness for C7 at a concrete request. -/
theorem toolsList_idempotent_and_pure_witness :
    ({ jsonrpc := "2.0", id := GoVal.num 7, method := "tools/list",
       params := Except.error "no params" : MCPRequest }).method = "tools/list"
    ∧ handleRequest dOk readyState
        { jsonrpc := "2.0", id := GoVal.num 7, method := "tools/list",
          params := Except.error "no params" } =
        StepResult.ok readyState (okResponse (GoVal.num 7) toolsListResult) :=
  ⟨rfl, toolsList_idempotent_and_pure.1 dOk readyState
    { jsonrpc := "2.0", id := GoVal.num 7, method := "tools/list",
      params := Except.error "no params" } rfl⟩

/-- C3: in the dispatch loop, a decode failure at end of stream (`io.EOF`)
terminates the loop cleanly with no further processing, and any other
decode failure skips exactly the malformed unit, after which the loop
continues processing the remaining events; in particular a well-formed
request following malformed units is handled and its response emitted. -/
theorem decode_loop_skips_and_terminates (d : Driver) :
    (∀ (st : ServerState) (junk rest : List DecodeEvent),
        (∀ e ∈ junk, e = DecodeEvent.malformed) →
        runLoop d st (junk ++ rest) = runLoop d st rest)
    ∧ (∀ (st : ServerState) (rest : List DecodeEvent),
        runLoop d st (DecodeEvent.eof :: rest) = ([], LoopExit.normal st))
    ∧ (∀ (st st1 : ServerState) (req : MCPRequest) (resp : MCPResponse)
        (rest : List DecodeEvent),
        handleRequest d st req = StepResult.ok st1 resp →
        (runLoop d st (DecodeEvent.malformed :: DecodeEvent.ok req :: rest)).1 =
          resp :: (runLoop d st1 rest).1) := by
  refine ⟨?_, ?_, ?_⟩
  · intro st junk rest hj
    induction junk with
    | nil => rfl
    | cons a tail ih =>
      have ha := hj a (by simp)
      subst ha
      simpa only [List.cons_append, runLoop] using
        ih (fun e he => hj e (List.mem_cons_of_mem _ he))
  · intro st rest
    rfl
  · intro st st1 req resp rest h
    simp only [runLoop, h]

/-- Witness for C3 at concrete inputs. -/
theorem decode_loop_skips_and_terminates_witness :
    ((∀ e ∈ [DecodeEvent.malformed, DecodeEvent.malformed],
        e = DecodeEvent.malformed)
      ∧ runLoop dOk emptyState
          ([DecodeEvent.malformed, DecodeEvent.malformed] ++ [DecodeEvent.eof]) =
          runLoop dOk emptyState [DecodeEvent.eof])
    ∧ runLoop dOk emptyState [DecodeEvent.eof] = ([], LoopExit.normal emptyState) :=
  ⟨⟨fun e he => by
      simp only [List.mem_cons, List.not_mem_nil, or_false] at he
      rcases he with h | h <;> exact h,
    (decode_loop_skips_and_terminates dOk).1 emptyState
      [DecodeEvent.malformed, DecodeEvent.malformed] [DecodeEvent.eof]
      (fun e he => by
        simp only [List.mem_cons, List.not_mem_nil, or_false] at he
        rcases he with h | h <;> exact h)⟩,
    (decode_loop_skips_and_terminates dOk).2.1 emptyState []⟩

/-- C8: teardown runs exactly once at process exit on every run — the
cleanup trace of a whole run of `main` is exactly one invocation of
`cleanup` on the exit state, whether the loop ended normally or by panic
and whether or not a Session was ever created; `cleanup` attempts to close
the page (when one exists) strictly before the browser (when one exists),
and since the returned errors of both `Close` calls are ignored, a failure
closing the page never prevents the attempt to close the browser, nor vice
versa. -/
theorem cleanup_once_ordered_independent :
    (∀ (d : Driver) (events : List DecodeEvent),
        (mainRun d events).cleanupTrace = cleanup d (mainRun d events).exitState)
    ∧ (∀ (d : Driver) (st : ServerState),
        (cleanup d st).map Prod.fst =
          (if st.page.isSome then [CloseAction.closePage] else []) ++
          (if st.browser.isSome then [CloseAction.closeBrowser] else []))
    ∧ (∀ (d : Driver) (st : ServerState), st.browser.isSome →
        (CloseAction.closeBrowser, d.closeBrowser) ∈ cleanup d st)
    ∧ (∀ (d : Driver) (st : ServerState), st.page.isSome →
        (CloseAction.closePage, d.closePage) ∈ cleanup d st) := by
  refine ⟨?_, ?_, ?_, ?_⟩
  · intro d events
    unfold mainRun
    split <;> rfl
  · intro d st
    unfold cleanup
    cases st.page <;> cases st.browser <;> simp
  · intro d st hb
    unfold cleanup
    cases hb1 : st.browser with
    | none => rw [hb1] at hb; exact absurd hb (by simp)
    | some _ => cases st.page <;> simp [hb1]
  · intro d st hp
    unfold cleanup
    cases hq : st.page with
    | none => rw [hq] at hp; exact absurd hp (by simp)
    | some _ => cases st.browser <;> simp [hq]

/-- Witness for C8 at a concrete driver (one whose page close fails) and
state. -/
theorem cleanup_once_ordered_independent_witness :
    (readyState.browser.isSome = true)
    ∧ (CloseAction.closeBrowser, dNoElem.closeBrowser) ∈ cleanup dNoElem readyState
    ∧ (mainRun dNoElem []).cleanupTrace =
        cleanup dNoElem (mainRun dNoElem []).exitState :=
  ⟨rfl,
   cleanup_once_ordered_independent.2.2.1 dNoElem readyState rfl,
   cleanup_once_ordered_independent.1 dNoElem []⟩

theorem handleToolCall_pageDefault (d : Driver) (st : ServerState)
    (req : MCPRequest) (st1 : ServerState) (resp : MCPResponse)
    (hst : pageDefault st)
    (h : handleToolCall d st req = StepResult.ok st1 resp) : pageDefault st1 := by
  unfold handleToolCall at h
  split at h
  · injection h with h1 h2
    subst h1
    exact hst
  · rename_i params hparams
    split at h
    · exact StepResult.noConfusion h
    · rename_i st2 errOut heq
      have hst2 : pageDefault st2 := by
        by_cases hb : st.browser = none
        · rw [if_pos hb] at heq
          obtain ⟨-, -, hpage⟩ := initBrowser_ok_spec d st st2 errOut heq
          intro p hp
          rw [hpage] at hp
          injection hp with hp
          subst hp
          rfl
        · rw [if_neg hb] at heq
          injection heq with h1 h2
          subst h1
          exact hst
      split at h
      · injection h with h1 h2
        subst h1
        exact hst2
      · split at h
        · injection h with h1 h2
          subst h1
          exact hst2
        · rename_i toolFn htool
          split at h
          · exact StepResult.noConfusion h
          · rename_i pg hpg
            have hpg0 : pg.timeout = 0 := hst2 pg hpg
            have htl := runTool_timeout d params.name toolFn htool pg
              params.arguments hpg0
            split at h
            · rename_i pg1 e heq2
              injection h with h1 h2
              subst h1
              intro p hp
              injection hp with hp
              subst hp
              have : pg1 = (toolFn pg params.arguments).1 := by rw [heq2]
              rw [this]
              exact htl
            · rename_i pg1 text heq2
              injection h with h1 h2
              subst h1
              intro p hp
              injection hp with hp
              subst hp
              have : pg1 = (toolFn pg params.arguments).1 := by rw [heq2]
              rw [this]
              exact htl

theorem handleRequest_pageDefault (d : Driver) (st : ServerState)
    (req : MCPRequest) (st1 : ServerState) (resp : MCPResponse)
    (hst : pageDefault st)
    (h : handleRequest d st req = StepResult.ok st1 resp) : pageDefault st1 := by
  unfold handleRequest at h
  split at h
  · injection h with h1 h2; subst h1; exact hst
  · split at h
    · injection h with h1 h2; subst h1; exact hst
    · split at h
      · exact handleToolCall_pageDefault d st req st1 resp hst h
      · injection h with h1 h2; subst h1; exact hst

/-- C4: every response the dispatcher produces echoes the identifier of the
request unchanged (for an arbitrary, uninterpreted `id` value) and contains
exactly one of a result payload or an error — never both, never neither. -/
theorem response_echoes_id_and_is_exclusive (d : Driver) (st : ServerState)
    (req : MCPRequest) (st1 : ServerState) (resp : MCPResponse)
    (h : handleRequest d st req = StepResult.ok st1 resp) :
    resp.id = req.id ∧
      ((resp.result.isSome ∧ resp.error = none) ∨
       (resp.result = none ∧ resp.error.isSome)) := by
  unfold handleRequest handleToolCall at h
  repeat' split at h
  all_goals
    first
    | exact StepResult.noConfusion h
    | (injection h with h1 h2
       subst h2
       simp [okResponse, errResponse])

/-- Witness for C4 at a concrete request. -/
theorem response_echoes_id_and_is_exclusive_witness :
    handleRequest dOk readyState (mkCall (GoVal.str "abc") "rod_get_text"
        [("selector", GoVal.str "#main")]) =
      StepResult.ok readyState
        (okResponse (GoVal.str "abc")
          (contentResult "Text content of #main: \x27hello\x27"))
    ∧ (okResponse (GoVal.str "abc")
        (contentResult "Text content of #main: \x27hello\x27")).id =
        (mkCall (GoVal.str "abc") "rod_get_text"
          [("selector", GoVal.str "#main")]).id :=
  ⟨rfl,
   (response_echoes_id_and_is_exclusive dOk readyState
     (mkCall (GoVal.str "abc") "rod_get_text" [("selector", GoVal.str "#main")])
     readyState
     (okResponse (GoVal.str "abc")
       (contentResult "Text content of #main: \x27hello\x27")) rfl).1⟩

/-- C1: a `rod_wait_for` call that reaches element resolution performs
exactly one resolution attempt under the requested timeout (default 30
seconds, converted to a duration), and on both the success and the failure
path returns the page with the timeout restored to the unbounded default
`0`; a call that fails argument validation leaves the page untouched, so
whenever the prior timeout was the default it is restored exactly; and the
override is invisible to later tool calls: handling any request preserves
the default-timeout invariant of the server state. -/
theorem waitFor_overrides_then_restores_timeout (d : Driver) (pg : PageState)
    (args : Args) (selector : String)
    (hsel : getStr args "selector" = some selector) :
    (waitFor d pg args =
      (match d.element (secondsToDuration (timeoutArg args)) selector with
       | Except.error _ =>
         ({ timeout := 0 },
           Except.error ("element " ++ selector ++ " did not appear within " ++
             toString (timeoutArg args) ++ " seconds"))
       | Except.ok _ =>
         ({ timeout := 0 }, Except.ok ("Element " ++ selector ++ " appeared"))))
    ∧ (pg.timeout = 0 → ((waitFor d pg args).1).timeout = pg.timeout)
    ∧ (∀ (st : ServerState) (req : MCPRequest) (st1 : ServerState)
        (resp : MCPResponse), pageDefault st →
        handleRequest d st req = StepResult.ok st1 resp → pageDefault st1) := by
  refine ⟨?_, ?_, ?_⟩
  · unfold waitFor
    rw [hsel]
    dsimp only
    unfold timeoutArg
    rfl
  · intro hpg
    rw [hpg]
    rcases waitFor_fst d pg args with h | h
    · rw [h, hpg]
    · exact h
  · intro st req st1 resp hst h
    exact handleRequest_pageDefault d st req st1 resp hst h

/-- Witness for C1 at a concrete driver, page and argument map. -/
theorem waitFor_overrides_then_restores_timeout_witness :
    getStr [("selector", GoVal.str "#demo"), ("timeout", GoVal.num 2)]
        "selector" = some "#demo"
    ∧ ((waitFor dNoElem { timeout := 0 }
        [("selector", GoVal.str "#demo"), ("timeout", GoVal.num 2)]).1).timeout =
      ({ timeout := 0 } : PageState).timeout :=
  ⟨rfl,
   (waitFor_overrides_then_restores_timeout dNoElem { timeout := 0 }
     [("selector", GoVal.str "#demo"), ("timeout", GoVal.num 2)] "#demo"
     rfl).2.1 rfl⟩

theorem handleRequest_toolsCall (d : Driver) (st : ServerState)
    (req : MCPRequest) (hm : req.method = "tools/call") :
    handleRequest d st req = handleToolCall d st req := by
  unfold handleRequest
  rw [hm]
  rfl

theorem ensure_browser_some (d : Driver) (st : ServerState)
    (hb : st.browser = some ()) :
    (if st.browser = none then initBrowser d st else InitResult.ok st none) =
      InitResult.ok st none := by
  rw [hb]
  rfl

theorem ensure_browser_none (d : Driver) (st : ServerState)
    (hb : st.browser = none) :
    (if st.browser = none then initBrowser d st else InitResult.ok st none) =
      initBrowser d st := by
  rw [hb]
  rfl

theorem state_eta (st : ServerState) (pg : PageState) (hpg : st.page = some pg) :
    ({ st with page := some pg } : ServerState) = st := by
  rw [← hpg]

theorem handleToolCall_known (d : Driver) (st : ServerState) (req : MCPRequest)
    (p : ToolCallParams)
    (toolFn : PageState → Args → PageState × Except String String)
    (pg : PageState) (hp : req.params = Except.ok p)
    (hb : st.browser = some ()) (hpg : st.page = some pg)
    (hrt : runTool d p.name = some toolFn) :
    handleToolCall d st req =
      (match toolFn pg p.arguments with
       | (pg1, Except.error e) =>
         StepResult.ok { st with page := some pg1 }
           (errResponse req.id (-32603) e)
       | (pg1, Except.ok text) =>
         StepResult.ok { st with page := some pg1 }
           (okResponse req.id (contentResult text))) := by
  unfold handleToolCall
  rw [hp]
  dsimp only
  rw [ensure_browser_some d st hb]
  dsimp only
  rw [hrt]
  dsimp only
  rw [hpg]

/-- C9: a `tools/call` request arriving while the Session is absent creates
the browser Session before the tool name is looked up and before any
argument validation runs: when creation succeeds, every produced response
(unknown tool and invalid arguments included) leaves the Session created —
in particular an unknown tool name yields its error response with the
freshly created session as the new state — and when creation fails, the
call panics even though the tool name was never consulted. -/
theorem session_created_before_tool_lookup (d : Driver) (st : ServerState)
    (req : MCPRequest) (p : ToolCallParams)
    (hm : req.method = "tools/call") (hp : req.params = Except.ok p)
    (hb : st.browser = none) :
    (∀ (st1 : ServerState) (errOut : Option String) (st2 : ServerState)
        (resp : MCPResponse),
        initBrowser d st = InitResult.ok st1 errOut →
        handleRequest d st req = StepResult.ok st2 resp →
        st2.browser = st1.browser ∧ st1.browser = some ())
    ∧ (∀ (st1 : ServerState) (errOut : Option String),
        initBrowser d st = InitResult.ok st1 errOut →
        runTool d p.name = none →
        handleRequest d st req =
          StepResult.ok st1
            (errResponse req.id (-32601) ("Unknown tool: " ++ p.name)))
    ∧ (∀ (st1 : ServerState) (msg : String),
        initBrowser d st = InitResult.panicked st1 msg →
        handleRequest d st req = StepResult.panicked st1 msg) := by
  refine ⟨?_, ?_, ?_⟩
  · intro st1 errOut st2 resp hinit h
    obtain ⟨heo, hbr, hpage⟩ := initBrowser_ok_spec d st st1 errOut hinit
    subst heo
    rw [handleRequest_toolsCall d st req hm] at h
    unfold handleToolCall at h
    rw [hp] at h
    dsimp only at h
    rw [ensure_browser_none d st hb, hinit] at h
    dsimp only at h
    refine ⟨?_, hbr⟩
    split at h
    · injection h with h1 h2
      subst h1
      rfl
    · rw [hpage] at h
      dsimp only at h
      split at h
      · injection h with h1 h2
        subst h1
        rfl
      · injection h with h1 h2
        subst h1
        rfl
  · intro st1 errOut hinit hrt
    obtain ⟨heo, hbr, hpage⟩ := initBrowser_ok_spec d st st1 errOut hinit
    subst heo
    rw [handleRequest_toolsCall d st req hm]
    unfold handleToolCall
    rw [hp]
    dsimp only
    rw [ensure_browser_none d st hb, hinit]
    dsimp only
    rw [hrt]
  · intro st1 msg hinit
    rw [handleRequest_toolsCall d st req hm]
    unfold handleToolCall
    rw [hp]
    dsimp only
    rw [ensure_browser_none d st hb, hinit]

/-- Witness for C9 at a concrete request naming an unknown tool on a fresh
server with a successfully launching driver. -/
theorem session_created_before_tool_lookup_witness :
    (mkCall (GoVal.num 3) "rod_hover" []).method = "tools/call"
    ∧ emptyState.browser = none
    ∧ handleRequest dOk emptyState (mkCall (GoVal.num 3) "rod_hover" []) =
        StepResult.ok readyState
          (errResponse (GoVal.num 3) (-32601) ("Unknown tool: " ++ "rod_hover")) :=
  ⟨rfl, rfl,
   (session_created_before_tool_lookup dOk emptyState
     (mkCall (GoVal.num 3) "rod_hover" [])
     { name := "rod_hover", arguments := [] } rfl rfl rfl).2.1
     readyState none rfl rfl⟩

/-- C2 (divergence witness): a `tools/call` that must create the Session
panics the whole process when the browser launch fails — `initBrowser`
reaches no error-returning path at all (`MustLaunch`/`MustConnect`/
`MustPage` panic, and the function otherwise returns `nil`), so the failure
is never converted into an error Response and the dead
`Failed to initialize browser` branch of the dispatcher is unreachable. -/
theorem initBrowser_failure_panics_process (d : Driver) (st : ServerState)
    (req : MCPRequest) (p : ToolCallParams) (e : String)
    (hm : req.method = "tools/call") (hp : req.params = Except.ok p)
    (hb : st.browser = none) (hl : d.launch d.lookPath.1 = Except.error e) :
    handleRequest d st req = StepResult.panicked st e
    ∧ ∀ (d2 : Driver) (st2 st3 : ServerState) (e2 : String),
        initBrowser d2 st2 ≠ InitResult.ok st3 (some e2) := by
  constructor
  · rw [handleRequest_toolsCall d st req hm]
    unfold handleToolCall
    rw [hp]
    dsimp only
    rw [ensure_browser_none d st hb]
    unfold initBrowser
    dsimp only
    rw [hl]
  · intro d2 st2 st3 e2 h
    obtain ⟨h1, -, -⟩ := initBrowser_ok_spec d2 st2 st3 (some e2) h
    exact Option.noConfusion h1

/-- Witness for C2 at a concrete failing driver: the process panics instead
of answering. -/
theorem initBrowser_failure_panics_process_witness :
    dLaunchFail.launch dLaunchFail.lookPath.1 =
      Except.error "browser executable not found"
    ∧ handleRequest dLaunchFail emptyState
        (mkCall (GoVal.num 5) "rod_navigate" [("url", GoVal.str "http://x")]) =
        StepResult.panicked emptyState "browser executable not found" :=
  ⟨rfl,
   (initBrowser_failure_panics_process dLaunchFail emptyState
     (mkCall (GoVal.num 5) "rod_navigate" [("url", GoVal.str "http://x")])
     { name := "rod_navigate", arguments := [("url", GoVal.str "http://x")] }
     "browser executable not found" rfl rfl rfl rfl).1⟩

/-- C6: a `rod_get_attribute` call whose selector resolves but whose named
attribute is absent from the element returns a successful, non-error
response whose text explicitly states that the attribute was not found;
absence is never mapped to an error response. -/
theorem getAttribute_absent_attribute_is_success (d : Driver)
    (st : ServerState) (req : MCPRequest) (p : ToolCallParams)
    (pg : PageState) (selector attrName : String) (el : Elem)
    (hm : req.method = "tools/call") (hp : req.params = Except.ok p)
    (hname : p.name = "rod_get_attribute")
    (hb : st.browser = some ()) (hpg : st.page = some pg)
    (hsel : getStr p.arguments "selector" = some selector)
    (hattr : getStr p.arguments "attribute" = some attrName)
    (hel : d.element pg.timeout selector = Except.ok el)
    (habs : d.attr el attrName = Except.ok none) :
    handleRequest d st req =
      StepResult.ok st
        (okResponse req.id
          (contentResult
            ("Attribute \x27" ++ attrName ++ "\x27 not found on " ++ selector))) := by
  have hga : getAttribute d pg p.arguments =
      (pg, Except.ok ("Attribute \x27" ++ attrName ++ "\x27 not found on " ++
        selector)) := by
    unfold getAttribute
    rw [hsel]
    dsimp only
    rw [hattr]
    dsimp only
    rw [hel]
    dsimp only
    rw [habs]
  have hrt : runTool d p.name = some (getAttribute d) := by
    rw [hname]
    rfl
  rw [handleRequest_toolsCall d st req hm,
    handleToolCall_known d st req p (getAttribute d) pg hp hb hpg hrt, hga]
  dsimp only
  rw [state_eta st pg hpg]

/-- Witness for C6 at a concrete element lacking the attribute. -/
theorem getAttribute_absent_attribute_is_success_witness :
    dOk.attr 0 "data-state-demo" = Except.ok none
    ∧ handleRequest dOk readyState
        (mkCall (GoVal.num 9) "rod_get_attribute"
          [("selector", GoVal.str "[data-state-demo]"),
           ("attribute", GoVal.str "data-state-demo")]) =
        StepResult.ok readyState
          (okResponse (GoVal.num 9)
            (contentResult
              ("Attribute \x27" ++ "data-state-demo" ++ "\x27 not found on " ++
                "[data-state-demo]"))) :=
  ⟨rfl,
   getAttribute_absent_attribute_is_success dOk readyState
     (mkCall (GoVal.num 9) "rod_get_attribute"
       [("selector", GoVal.str "[data-state-demo]"),
        ("attribute", GoVal.str "data-state-demo")])
     { name := "rod_get_attribute",
       arguments := [("selector", GoVal.str "[data-state-demo]"),
                     ("attribute", GoVal.str "data-state-demo")] }
     { timeout := 0 } "[data-state-demo]" "data-state-demo" 0
     rfl rfl rfl rfl rfl rfl rfl rfl rfl⟩

theorem firstInvalid_single (args : Args) (a f : String)
    (h : firstInvalidArg [a] args = some f) :
    f = a ∧ getStr args a = none := by
  unfold firstInvalidArg at h
  cases hg : getStr args a with
  | none =>
    simp only [List.find?_cons, hg, Option.isNone_none] at h
    exact ⟨(Option.some.injEq a f).mp h |>.symm, rfl⟩
  | some s =>
    simp [List.find?_cons, hg] at h

theorem firstInvalid_pair (args : Args) (a b f : String)
    (h : firstInvalidArg [a, b] args = some f) :
    (f = a ∧ getStr args a = none) ∨
    (f = b ∧ (∃ s, getStr args a = some s) ∧ getStr args b = none) := by
  unfold firstInvalidArg at h
  cases hg : getStr args a with
  | none =>
    left
    simp only [List.find?_cons, hg, Option.isNone_none] at h
    exact ⟨(Option.some.injEq a f).mp h |>.symm, rfl⟩
  | some s =>
    right
    cases hg2 : getStr args b with
    | none =>
      simp only [List.find?_cons, hg, hg2, Option.isNone_some,
        Option.isNone_none] at h
      exact ⟨(Option.some.injEq b f).mp h |>.symm, ⟨s, rfl⟩, rfl⟩
    | some s2 =>
      simp [List.find?_cons, hg, hg2] at h

/-- C5: a `tools/call` naming a known tool with a missing or mistyped
required argument produces an error response naming the offending field
(`<field> must be a string`) and no result, leaves the server state exactly
unchanged, and the Session remains usable: a subsequent valid
`rod_navigate` call on the same state still succeeds. -/
theorem invalid_required_argument_yields_error (d : Driver)
    (st : ServerState) (req : MCPRequest) (p : ToolCallParams)
    (pg : PageState) (f : String)
    (hm : req.method = "tools/call") (hp : req.params = Except.ok p)
    (hb : st.browser = some ()) (hpg : st.page = some pg)
    (hknown : (runTool d p.name).isSome = true)
    (hf : firstInvalidArg (requiredStringArgs p.name) p.arguments = some f) :
    handleRequest d st req =
      StepResult.ok st (errResponse req.id (-32603) (f ++ " must be a string"))
    ∧ (∀ (req2 : MCPRequest) (p2 : ToolCallParams) (url : String),
        req2.method = "tools/call" → req2.params = Except.ok p2 →
        p2.name = "rod_navigate" → getStr p2.arguments "url" = some url →
        d.navigate url = Except.ok () → d.waitLoad = Except.ok () →
        handleRequest d st req2 =
          StepResult.ok st
            (okResponse req2.id
              (contentResult ("Successfully navigated to " ++ url)))) := by
  constructor
  · unfold runTool at hknown
    split at hknown
    case h_9 => simp at hknown
    case h_1 hname =>
      rw [hname] at hf
      obtain ⟨hfa, hlook⟩ := firstInvalid_single p.arguments "url" f hf
      subst hfa
      have htool : navigate d pg p.arguments =
          (pg, Except.error "url must be a string") := by
        unfold navigate
        rw [hlook]
      rw [handleRequest_toolsCall d st req hm,
        handleToolCall_known d st req p (navigate d) pg hp hb hpg
          (by rw [hname]; rfl), htool]
      dsimp only
      rw [state_eta st pg hpg]
      rfl
    case h_2 hname =>
      rw [hname] at hf
      obtain ⟨hfa, hlook⟩ := firstInvalid_single p.arguments "selector" f hf
      subst hfa
      have htool : click d pg p.arguments =
          (pg, Except.error "selector must be a string") := by
        unfold click
        rw [hlook]
      rw [handleRequest_toolsCall d st req hm,
        handleToolCall_known d st req p (click d) pg hp hb hpg
          (by rw [hname]; rfl), htool]
      dsimp only
      rw [state_eta st pg hpg]
      rfl
    case h_3 hname =>
      rw [hname] at hf
      simp [firstInvalidArg, requiredStringArgs] at hf
    case h_4 hname =>
      rw [hname] at hf
      rcases firstInvalid_pair p.arguments "selector" "attribute" f hf with
        ⟨hfa, hlook⟩ | ⟨hfa, ⟨s, hs⟩, hlook⟩
      · subst hfa
        have htool : getAttribute d pg p.arguments =
            (pg, Except.error "selector must be a string") := by
          unfold getAttribute
          rw [hlook]
        rw [handleRequest_toolsCall d st req hm,
          handleToolCall_known d st req p (getAttribute d) pg hp hb hpg
            (by rw [hname]; rfl), htool]
        dsimp only
        rw [state_eta st pg hpg]
        rfl
      · subst hfa
        have htool : getAttribute d pg p.arguments =
            (pg, Except.error "attribute must be a string") := by
          unfold getAttribute
          rw [hs]
          dsimp only
          rw [hlook]
        rw [handleRequest_toolsCall d st req hm,
          handleToolCall_known d st req p (getAttribute d) pg hp hb hpg
            (by rw [hname]; rfl), htool]
        dsimp only
        rw [state_eta st pg hpg]
        rfl
    case h_5 hname =>
      rw [hname] at hf
      obtain ⟨hfa, hlook⟩ := firstInvalid_single p.arguments "selector" f hf
      subst hfa
      have htool : getText d pg p.arguments =
          (pg, Except.error "selector must be a string") := by
        unfold getText
        rw [hlook]
      rw [handleRequest_toolsCall d st req hm,
        handleToolCall_known d st req p (getText d) pg hp hb hpg
          (by rw [hname]; rfl), htool]
      dsimp only
      rw [state_eta st pg hpg]
      rfl
    case h_6 hname =>
      rw [hname] at hf
      obtain ⟨hfa, hlook⟩ := firstInvalid_single p.arguments "selector" f hf
      subst hfa
      have htool : waitFor d pg p.arguments =
          (pg, Except.error "selector must be a string") := by
        unfold waitFor
        rw [hlook]
      rw [handleRequest_toolsCall d st req hm,
        handleToolCall_known d st req p (waitFor d) pg hp hb hpg
          (by rw [hname]; rfl), htool]
      dsimp only
      rw [state_eta st pg hpg]
      rfl
    case h_7 hname =>
      rw [hname] at hf
      obtain ⟨hfa, hlook⟩ := firstInvalid_single p.arguments "script" f hf
      subst hfa
      have htool : eval d pg p.arguments =
          (pg, Except.error "script must be a string") := by
        unfold eval
        rw [hlook]
      rw [handleRequest_toolsCall d st req hm,
        handleToolCall_known d st req p (eval d) pg hp hb hpg
          (by rw [hname]; rfl), htool]
      dsimp only
      rw [state_eta st pg hpg]
      rfl
    case h_8 hname =>
      rw [hname] at hf
      rcases firstInvalid_pair p.arguments "selector" "text" f hf with
        ⟨hfa, hlook⟩ | ⟨hfa, ⟨s, hs⟩, hlook⟩
      · subst hfa
        have htool : fill d pg p.arguments =
            (pg, Except.error "selector must be a string") := by
          unfold fill
          rw [hlook]
        rw [handleRequest_toolsCall d st req hm,
          handleToolCall_known d st req p (fill d) pg hp hb hpg
            (by rw [hname]; rfl), htool]
        dsimp only
        rw [state_eta st pg hpg]
        rfl
      · subst hfa
        have htool : fill d pg p.arguments =
            (pg, Except.error "text must be a string") := by
          unfold fill
          rw [hs]
          dsimp only
          rw [hlook]
        rw [handleRequest_toolsCall d st req hm,
          handleToolCall_known d st req p (fill d) pg hp hb hpg
            (by rw [hname]; rfl), htool]
        dsimp only
        rw [state_eta st pg hpg]
        rfl
  · intro req2 p2 url hm2 hp2 hn2 hu2 hnav hwl
    have htool : navigate d pg p2.arguments =
        (pg, Except.ok ("Successfully navigated to " ++ url)) := by
      unfold navigate
      rw [hu2]
      dsimp only
      rw [hnav]
      dsimp only
      rw [hwl]
    rw [handleRequest_toolsCall d st req2 hm2,
      handleToolCall_known d st req2 p2 (navigate d) pg hp2 hb hpg
        (by rw [hn2]; rfl), htool]
    dsimp only
    rw [state_eta st pg hpg]

/-- Witness for C5 at a concrete `rod_fill` call missing its `text`
argument, on a live session. -/
theorem invalid_required_argument_yields_error_witness :
    (runTool dOk "rod_fill").isSome = true
    ∧ firstInvalidArg (requiredStringArgs "rod_fill")
        [("selector", GoVal.str "#in")] = some "text"
    ∧ handleRequest dOk readyState
        (mkCall (GoVal.num 11) "rod_fill" [("selector", GoVal.str "#in")]) =
        StepResult.ok readyState
          (errResponse (GoVal.num 11) (-32603) ("text" ++ " must be a string")) :=
  ⟨rfl, rfl,
   (invalid_required_argument_yields_error dOk readyState
     (mkCall (GoVal.num 11) "rod_fill" [("selector", GoVal.str "#in")])
     { name := "rod_fill", arguments := [("selector", GoVal.str "#in")] }
     { timeout := 0 } "text" rfl rfl rfl rfl rfl rfl).1⟩

/-- C10: an optional argument that is missing or of the wrong type is
silently replaced by its documented default: a missing, non-string or
empty-string screenshot `filename` makes the call behave exactly as if the
timestamp-derived name had been passed, a missing or non-boolean `fullPage`
behaves as `false`, and a missing or non-numeric `wait_for` `timeout`
behaves as 30 seconds — never an error. -/
theorem wrong_typed_optional_argument_uses_default :
    (∀ (d : Driver) (pg : PageState) (args : Args),
        getStr args "filename" = none ∨ getStr args "filename" = some "" →
        screenshot d pg args =
          screenshot d pg
            (("filename",
              GoVal.str ("screenshot_" ++ toString d.nowUnix ++ ".png")) :: args))
    ∧ (∀ (d : Driver) (pg : PageState) (args : Args),
        getBool args "fullPage" = none →
        screenshot d pg args =
          screenshot d pg (("fullPage", GoVal.boolean false) :: args))
    ∧ (∀ (d : Driver) (pg : PageState) (args : Args),
        getNum args "timeout" = none →
        waitFor d pg args = waitFor d pg (("timeout", GoVal.num 30) :: args)) := by
  refine ⟨?_, ?_, ?_⟩
  · intro d pg args hf
    have hne : ("screenshot_" ++ toString d.nowUnix ++ ".png" = "") = False := by
      simp only [eq_iff_iff, iff_false]
      intro h
      have hlen := congrArg String.length h
      simp only [String.length_append] at hlen
      have e1 : "screenshot_".length = 11 := rfl
      have e2 : ".png".length = 4 := rfl
      have e3 : ("" : String).length = 0 := rfl
      rw [e1, e2, e3] at hlen
      omega
    rcases hf with hf | hf <;>
      · unfold screenshot
        rw [hf]
        simp only [getStr, getBool, lookupArg, hne]
        rfl
  · intro d pg args hfp
    unfold screenshot
    rw [hfp]
    rfl
  · intro d pg args ht
    unfold waitFor
    rw [ht]
    rfl

/-- Witness for C10 at a concrete argument map carrying a numeric filename,
a string fullPage and a string timeout. -/
theorem wrong_typed_optional_argument_uses_default_witness :
    getStr [("filename", GoVal.num 5)] "filename" = none
    ∧ getBool [("fullPage", GoVal.str "yes")] "fullPage" = none
    ∧ getNum [("timeout", GoVal.str "soon"), ("selector", GoVal.str "#x")]
        "timeout" = none
    ∧ waitFor dOk { timeout := 0 }
        [("timeout", GoVal.str "soon"), ("selector", GoVal.str "#x")] =
      waitFor dOk { timeout := 0 }
        (("timeout", GoVal.num 30) ::
          [("timeout", GoVal.str "soon"), ("selector", GoVal.str "#x")]) :=
  ⟨rfl, rfl, rfl,
   wrong_typed_optional_argument_uses_default.2.2 dOk { timeout := 0 }
     [("timeout", GoVal.str "soon"), ("selector", GoVal.str "#x")] rfl⟩

end RodMCP
